import Mathlib

/-!
Shallow embedding of the authenticated request pipeline of
`src/omadaClient.ts` (class `OmadaClient`): token management
(`ensureAccessToken` / `authenticate` / `setToken` / `clearToken`),
request dispatch with one-shot auth retry (`request`), pagination
(`fetchPaginated`), and the entity lookups (`getDevice` / `getClient`,
`resolveSiteId`).

The HTTP transport (axios) and the wall clock (`Date.now()`) are external
to the program; they are modelled as finite scripts carried in a context
record and consumed in call order.  Each network helper pops the next
scripted outcome; the context also logs every dispatched request (with the
authorization header value built by the code) and counts posts to the
token endpoint, so that "exactly one retry" and "no further network call"
are statable.  JavaScript truthiness tests on optional strings / numbers
(`if (this.accessToken)`, `if (this.tokenExpiresAt)`, `!totalRows`) are
modelled exactly: the empty string and the number 0 are falsy.
-/

namespace Omada

/-- `const TOKEN_EXPIRY_BUFFER_SECONDS = 30` (src/omadaClient.ts line 19). -/
def TOKEN_EXPIRY_BUFFER_SECONDS : Int := 30

/-- `const DEFAULT_PAGE_SIZE = 200` (src/omadaClient.ts line 20). -/
def DEFAULT_PAGE_SIZE : Nat := 200

/-- JS truthiness of an optional string: `undefined` and `""` are falsy. -/
def truthyStr : Option String → Bool
  | none => false
  | some s => s ≠ ""

/-- JS truthiness of an optional integer: `undefined` and `0` are falsy. -/
def truthyInt : Option Int → Bool
  | none => false
  | some n => n ≠ 0

/-- JS truthiness of an optional count (`!totalRows`): `undefined` and `0`
are falsy. -/
def truthyNat : Option Nat → Bool
  | none => false
  | some n => n ≠ 0

/-- The `{errorCode, msg?, result?}` envelope every Omada API response
uses (type `OmadaApiResponse<T>` of types.ts, spec section 6). -/
structure OmadaApiResponse (T : Type) where
  errorCode : Int
  msg : Option String
  result : Option T
deriving Repr, DecidableEq

/-- The token grant payload `{accessToken, refreshToken?, expiresIn}`
(type `TokenResult`); every field optional so that the `{} as T` fallback
of `ensureSuccess` is representable.  `expiresIn = none` models a missing
or non-finite number (`Number.isFinite` false). -/
structure TokenResult where
  accessToken : Option String
  refreshToken : Option String
  expiresIn : Option Int
deriving Repr, DecidableEq

/-- A page payload `{totalRows?, data?}` (type `PaginatedResult<T>`). -/
structure PaginatedResult (T : Type) where
  data : Option (List T)
  totalRows : Option Nat
deriving Repr, DecidableEq

/-- The `{} as T` empty-object fallback used by `ensureSuccess` when
`result` is absent. -/
class EmptyObject (T : Type) where
  emptyObject : T

instance : EmptyObject TokenResult := ⟨⟨none, none, none⟩⟩

instance {T : Type} : EmptyObject (PaginatedResult T) := ⟨⟨none, none⟩⟩

/-- The mutable token state of the client: fields `accessToken`,
`refreshToken`, `tokenExpiresAt` (epoch milliseconds). -/
structure TokenState where
  accessToken : Option String
  refreshToken : Option String
  tokenExpiresAt : Option Int
deriving Repr, DecidableEq

/-- `clearToken()`: every token field set to `undefined`. -/
def clearTokenState : TokenState := ⟨none, none, none⟩

/-- Errors thrown by the pipeline. `apiFailure msg` is the plain
`new Error(response.msg ?? 'Omada API request failed')` thrown by
`ensureSuccess`; `siteMissing` the error of `resolveSiteId`;
`noRefreshToken` the guard in `authenticate`; `httpError`/`netError`/
`nonAxios` the transport-level failures rethrown by `request`;
`authNetError` a transport failure of a token-endpoint post. -/
inductive OmadaError where
  | apiFailure (msg : String)
  | siteMissing
  | noRefreshToken
  | httpError (status : Nat) (errorCode : Option Int)
  | netError
  | nonAxios
  | authNetError
deriving Repr, DecidableEq

/-- `ensureSuccess`: throw on a non-zero envelope `errorCode` (message
`msg ?? 'Omada API request failed'`), otherwise `result ?? ({} as T)`. -/
def ensureSuccess {T : Type} [EmptyObject T] (response : OmadaApiResponse T) :
    Except OmadaError T :=
  if response.errorCode ≠ 0 then
    .error (.apiFailure (response.msg.getD "Omada API request failed"))
  else
    .ok (response.result.getD EmptyObject.emptyObject)

/-- `isAuthErrorCode`: membership of the envelope error code in the fixed
session-invalid set; `undefined` is never a member. -/
def isAuthErrorCode : Option Int → Bool
  | none => false
  | some c => ([-44106, -44111, -44112, -44113, -44114, -44116] : List Int).contains c

/-- Outcome of one `this.http.request` transport call: a 2xx response
whose body is `body`, an axios error with an HTTP status and the
`errorCode` field of the error response body (if any), an axios error
without a response (status `undefined`), or a non-axios throw. -/
inductive TransportResult (β : Type) where
  | success (body : β)
  | httpError (status : Nat) (errorCode : Option Int)
  | netError
  | nonAxios
deriving Repr, DecidableEq

/-- Outcome of one `this.http.post` to `/openapi/authorize/token`: a 2xx
response carrying the token envelope, or any transport failure. -/
inductive AuthNetResult where
  | ok (env : OmadaApiResponse TokenResult)
  | fail
deriving Repr, DecidableEq

/-- The execution context: the client's mutable token state plus the
external world (clock readings and transport outcomes, consumed in call
order) and the observation log (dispatched configs with the authorization
header the code attached, and the number of token-endpoint posts).
`β` is the response body type of the dispatcher, `κ` the request-config
type. -/
structure Ctx (β κ : Type) where
  st : TokenState
  times : List Int
  authResults : List AuthNetResult
  httpResults : List (TransportResult β)
  dispatched : List (κ × String)
  authCalls : Nat
deriving Repr

/-- Pop the next `Date.now()` reading (0 once the script is exhausted). -/
def Ctx.popTime {β κ : Type} (c : Ctx β κ) : Int × Ctx β κ :=
  match c.times with
  | [] => (0, c)
  | t :: ts => (t, { c with times := ts })

/-- `setToken(token)`: store the grant verbatim and compute
`tokenExpiresAt = Date.now() + max(expiresIn − buffer, 0) * 1000`,
with a non-finite `expiresIn` read as 0. -/
def setToken (_st : TokenState) (now : Int) (token : TokenResult) : TokenState :=
  let expiresInSeconds : Int := token.expiresIn.getD 0
  let expiresInMs : Int := max (expiresInSeconds - TOKEN_EXPIRY_BUFFER_SECONDS) 0 * 1000
  { accessToken := token.accessToken
    refreshToken := token.refreshToken
    tokenExpiresAt := some (now + expiresInMs) }

/-- One post to the token endpoint: consume the next scripted auth
outcome, run `ensureSuccess` on the envelope and `setToken` on success
(reading `Date.now()` there). -/
def postAuth {β κ : Type} (c : Ctx β κ) : Except OmadaError Unit × Ctx β κ :=
  match c.authResults with
  | [] => (.error .authNetError, c)
  | r :: rest =>
    let c := { c with authResults := rest, authCalls := c.authCalls + 1 }
    match r with
    | .fail => (.error .authNetError, c)
    | .ok env =>
      match ensureSuccess env with
      | .error e => (.error e, c)
      | .ok token =>
        let (now, c) := c.popTime
        (.ok (), { c with st := setToken c.st now token })

/-- The two grant types accepted by `authenticate`. -/
inductive GrantType where
  | client_credentials
  | refresh_token
deriving Repr, DecidableEq

/-- `authenticate(grantType)`: for `refresh_token`, throw when no refresh
token is held (JS truthiness); otherwise post to the token endpoint and
store the resulting token. -/
def authenticate {β κ : Type} (grantType : GrantType) (c : Ctx β κ) :
    Except OmadaError Unit × Ctx β κ :=
  match grantType with
  | .client_credentials => postAuth c
  | .refresh_token =>
    if truthyStr c.st.refreshToken then postAuth c
    else (.error .noRefreshToken, c)

/-- Lines 162–171 of `ensureAccessToken`: try a refresh grant when a
refresh token is held, clearing the token state and falling through to a
fresh client-credentials grant when the refresh throws for any reason. -/
def refreshOrGrant {β κ : Type} (c : Ctx β κ) : Except OmadaError Unit × Ctx β κ :=
  if truthyStr c.st.refreshToken then
    match authenticate .refresh_token c with
    | (.ok u, c') => (.ok u, c')
    | (.error _, c') =>
      authenticate .client_credentials { c' with st := clearTokenState }
  else
    authenticate .client_credentials c

/-- `ensureAccessToken()`: when an access token and an expiry are held
(JS truthiness) read `Date.now()` and return unchanged if strictly before
the expiry; otherwise refresh or re-grant. -/
def ensureAccessToken {β κ : Type} (c : Ctx β κ) : Except OmadaError Unit × Ctx β κ :=
  if truthyStr c.st.accessToken ∧ truthyInt c.st.tokenExpiresAt then
    let (now, c') := c.popTime
    if now < c.st.tokenExpiresAt.getD 0 then (.ok (), c')
    else refreshOrGrant c'
  else
    refreshOrGrant c

/-- The retry trigger of `request`'s catch block:
`status === 401 || status === 403 || this.isAuthErrorCode(errorCode)`. -/
def authRetryTrigger (status : Nat) (errorCode : Option Int) : Bool :=
  status == 401 || status == 403 || isAuthErrorCode errorCode

/-- The authorization header value `AccessToken=${this.accessToken ?? ''}`
built from the current token state. -/
def authHeader (st : TokenState) : String :=
  "AccessToken=" ++ st.accessToken.getD ""

/-- One `this.http.request` transport call: consume the next scripted
outcome and log the dispatched config together with the authorization
header attached to it. -/
def dispatch {β κ : Type} (cfg : κ) (c : Ctx β κ) : TransportResult β × Ctx β κ :=
  match c.httpResults with
  | [] => (.netError, { c with dispatched := c.dispatched ++ [(cfg, authHeader c.st)] })
  | r :: rest =>
    (r, { c with httpResults := rest
                 dispatched := c.dispatched ++ [(cfg, authHeader c.st)] })

/-- `request(config, retry)`: ensure a valid token, dispatch; on an axios
error whose status is 401/403 or whose body error code is session-invalid
(and `retry` still true) clear the token, re-authenticate and replay the
identical config once with `retry = false`; surface every other failure. -/
def request {β κ : Type} (cfg : κ) (retry : Bool) (c : Ctx β κ) :
    Except OmadaError β × Ctx β κ :=
  match ensureAccessToken c with
  | (.error e, c') => (.error e, c')
  | (.ok _, c') =>
    match dispatch cfg c' with
    | (.success body, c'') => (.ok body, c'')
    | (.netError, c'') => (.error .netError, c'')
    | (.nonAxios, c'') => (.error .nonAxios, c'')
    | (.httpError status errorCode, c'') =>
      if retry ∧ authRetryTrigger status errorCode then
        match ensureAccessToken { c'' with st := clearTokenState } with
        | (.error e, c₃) => (.error e, c₃)
        | (.ok _, c₃) => request cfg false c₃
      else
        (.error (.httpError status errorCode), c'')
termination_by (cond retry 1 0)
decreasing_by simp_all

/-- The request config of a paginated GET: the path plus the `page` and
`pageSize` query parameters added by `fetchPaginated`. -/
structure PageReq where
  path : String
  page : Nat
  pageSize : Nat
deriving Repr, DecidableEq

/-- The loop body and condition of `fetchPaginated` (lines 110–127),
fuelled for termination; the fuel is chosen so that the transport script
is exhausted (yielding a network error) strictly before the fuel is. -/
def fetchGo {T : Type} (fuel : Nat) (path : String) (page : Nat)
    (totalRows : Option Nat) (records : List T)
    (c : Ctx (OmadaApiResponse (PaginatedResult T)) PageReq) :
    Except OmadaError (List T) × Ctx (OmadaApiResponse (PaginatedResult T)) PageReq :=
  match fuel with
  | 0 => (.error .netError, c)
  | fuel' + 1 =>
    match request ⟨path, page, DEFAULT_PAGE_SIZE⟩ true c with
    | (.error e, c') => (.error e, c')
    | (.ok response, c') =>
      match ensureSuccess response with
      | .error e => (.error e, c')
      | .ok result =>
        let pageData := result.data.getD []
        let totalRows' := match result.totalRows with
          | some n => some n
          | none => totalRows
        let records' := records ++ pageData
        if pageData.isEmpty then (.ok records', c')
        else if truthyNat totalRows' = false ∨ records'.length < totalRows'.getD 0 then
          fetchGo fuel' path (page + 1) totalRows' records' c'
        else
          (.ok records', c')

/-- `fetchPaginated(path)`: accumulate pages starting at page 1 with the
default page size, tracking the most recently declared `totalRows`, until
a page is empty or the accumulated count reaches a truthy total. -/
def fetchPaginated {T : Type} (path : String)
    (c : Ctx (OmadaApiResponse (PaginatedResult T)) PageReq) :
    Except OmadaError (List T) × Ctx (OmadaApiResponse (PaginatedResult T)) PageReq :=
  fetchGo (c.httpResults.length + 1) path 1 none [] c

/-- The configuration fields of the client used by the typed operations:
the optional default site id and the controller id. -/
structure Options where
  siteId : Option String
  omadacId : String
deriving Repr, DecidableEq

/-- `encodeURIComponent` is a JavaScript standard-library function, not
repository code; it is injective on strings and orthogonal to every claim
(paths are opaque to the scripted transport), so it is modelled as the
identity. -/
def encodeURIComponent (s : String) : String := s

/-- `buildOmadaPath(relativePath)`: prefix with a leading slash when
missing and scope under `/openapi/v1/<omadacId>`. -/
def buildOmadaPath (omadacId : String) (relativePath : String) : String :=
  let normalized :=
    if relativePath.startsWith "/" then relativePath else "/" ++ relativePath
  "/openapi/v1/" ++ encodeURIComponent omadacId ++ normalized

/-- `resolveSiteId(siteId?)`: the argument when truthy, else the
configured default when truthy, else an error. -/
def resolveSiteId (opts : Options) (siteId : Option String) :
    Except OmadaError String :=
  if truthyStr siteId then .ok (siteId.getD "")
  else if truthyStr opts.siteId then .ok (opts.siteId.getD "")
  else .error .siteMissing

/-- An Omada device record, as read by `getDevice` (fields `mac` and
`deviceId`; the remaining controller-defined fields are passthrough and
irrelevant to the lookups). -/
structure OmadaDeviceInfo where
  mac : String
  deviceId : String
deriving Repr, DecidableEq

/-- An Omada client record, as read by `getClient` (fields `mac` and
`id`). -/
structure OmadaClientInfo where
  mac : String
  id : String
deriving Repr, DecidableEq

/-- `listDevices(siteId?)`: resolve the site id (throwing before any
network activity when absent) and fetch all device pages. -/
def listDevices (opts : Options) (siteId : Option String)
    (c : Ctx (OmadaApiResponse (PaginatedResult OmadaDeviceInfo)) PageReq) :
    Except OmadaError (List OmadaDeviceInfo) ×
      Ctx (OmadaApiResponse (PaginatedResult OmadaDeviceInfo)) PageReq :=
  match resolveSiteId opts siteId with
  | .error e => (.error e, c)
  | .ok resolvedSiteId =>
    fetchPaginated
      (buildOmadaPath opts.omadacId
        ("/sites/" ++ encodeURIComponent resolvedSiteId ++ "/devices")) c

/-- `listClients(siteId?)`: resolve the site id and fetch all client
pages. -/
def listClients (opts : Options) (siteId : Option String)
    (c : Ctx (OmadaApiResponse (PaginatedResult OmadaClientInfo)) PageReq) :
    Except OmadaError (List OmadaClientInfo) ×
      Ctx (OmadaApiResponse (PaginatedResult OmadaClientInfo)) PageReq :=
  match resolveSiteId opts siteId with
  | .error e => (.error e, c)
  | .ok resolvedSiteId =>
    fetchPaginated
      (buildOmadaPath opts.omadacId
        ("/sites/" ++ encodeURIComponent resolvedSiteId ++ "/clients")) c

/-- The device matcher of `getDevice`:
`device.mac === identifier || device.deviceId === identifier`. -/
def deviceMatches (identifier : String) (d : OmadaDeviceInfo) : Bool :=
  d.mac == identifier || d.deviceId == identifier

/-- The client matcher of `getClient`:
`client.mac === identifier || client.id === identifier`. -/
def clientMatches (identifier : String) (cl : OmadaClientInfo) : Bool :=
  cl.mac == identifier || cl.id == identifier

/-- `getDevice(identifier, siteId?)`: list all devices and return the
first whose `mac` or `deviceId` equals the identifier (`Array.find`,
absent on no match). -/
def getDevice (opts : Options) (identifier : String) (siteId : Option String)
    (c : Ctx (OmadaApiResponse (PaginatedResult OmadaDeviceInfo)) PageReq) :
    Except OmadaError (Option OmadaDeviceInfo) ×
      Ctx (OmadaApiResponse (PaginatedResult OmadaDeviceInfo)) PageReq :=
  match listDevices opts siteId c with
  | (.error e, c') => (.error e, c')
  | (.ok devices, c') => (.ok (devices.find? (deviceMatches identifier)), c')

/-- `getClient(identifier, siteId?)`: list all clients and return the
first whose `mac` or `id` equals the identifier. -/
def getClient (opts : Options) (identifier : String) (siteId : Option String)
    (c : Ctx (OmadaApiResponse (PaginatedResult OmadaClientInfo)) PageReq) :
    Except OmadaError (Option OmadaClientInfo) ×
      Ctx (OmadaApiResponse (PaginatedResult OmadaClientInfo)) PageReq :=
  match listClients opts siteId c with
  | (.error e, c') => (.error e, c')
  | (.ok clients, c') => (.ok (clients.find? (clientMatches identifier)), c')

/-! ## Helper lemmas -/

/-- A scripted 2xx page response: body `{errorCode: 0, result: {data, totalRows}}`. -/
def mkPageResp {T : Type} (d : List T) (tot : Option Nat) :
    TransportResult (OmadaApiResponse (PaginatedResult T)) :=
  .success ⟨0, none, some ⟨some d, tot⟩⟩

/-- The dispatch log produced by `k` consecutive page requests starting at
`page`, all carrying the same authorization header. -/
def pagesDispatch (path : String) (page k : Nat) (hdr : String) :
    List (PageReq × String) :=
  match k with
  | 0 => []
  | k' + 1 => (⟨path, page, DEFAULT_PAGE_SIZE⟩, hdr) :: pagesDispatch path (page + 1) k' hdr

/-- A token-endpoint post outcome that the `try`/`catch` of
`ensureAccessToken` treats as a failure: a transport failure or an
envelope with a non-zero error code. -/
def authFails : AuthNetResult → Bool
  | .fail => true
  | .ok env => env.errorCode ≠ 0

/-- With a held, unexpired token (all three truthiness checks pass and the
clock reads strictly before the expiry), `request` performs no
authentication activity: it consumes one clock reading and one transport
outcome, logs one dispatch carrying the held token, and returns the 2xx
body. -/
theorem request_valid_success {β κ : Type} (cfg : κ) (a : String) (rt : Option String)
    (t now : Int) (ts : List Int) (ar : List AuthNetResult) (body : β)
    (hr : List (TransportResult β)) (disp : List (κ × String)) (n : Nat)
    (hane : a ≠ "") (htne : t ≠ 0) (hnow : now < t) :
    request cfg true
        (⟨⟨some a, rt, some t⟩, now :: ts, ar, .success body :: hr, disp, n⟩ : Ctx β κ)
      = (.ok body,
         ⟨⟨some a, rt, some t⟩, ts, ar, hr,
          disp ++ [(cfg, "AccessToken=" ++ a)], n⟩) := by
  simp [request, ensureAccessToken, truthyStr, truthyInt, Ctx.popTime, dispatch,
    authHeader, hane, htne, hnow]

/-- When the refresh token is held but the refresh post fails (transport
failure or non-zero envelope code), `refreshOrGrant` clears the token
state and proceeds to a single client-credentials post on the remaining
script. -/
theorem refreshOrGrant_refresh_fails {β κ : Type} (c : Ctx β κ) (r₁ : AuthNetResult)
    (rest : List AuthNetResult)
    (hrt : truthyStr c.st.refreshToken = true)
    (har : c.authResults = r₁ :: rest)
    (hfail : authFails r₁ = true) :
    refreshOrGrant c
      = postAuth { c with st := clearTokenState, authResults := rest,
                          authCalls := c.authCalls + 1 } := by
  rcases r₁ with env | _
  · have hne : env.errorCode ≠ 0 := by simpa [authFails] using hfail
    simp [refreshOrGrant, authenticate, postAuth, hrt, har, ensureSuccess, hne]
  · simp [refreshOrGrant, authenticate, postAuth, hrt, har]

/-- When the validity guard of `ensureAccessToken` fails (no truthy access
token, no truthy expiry, or the clock reading not strictly before the
expiry), the call reduces to `refreshOrGrant` on the same context up to
the possibly consumed clock reading. -/
theorem ensureAccessToken_guard_fails {β κ : Type} (c : Ctx β κ)
    (hguard : truthyStr c.st.accessToken = false ∨
              truthyInt c.st.tokenExpiresAt = false ∨
              c.st.tokenExpiresAt.getD 0 ≤ c.times.headD 0) :
    ∃ ts', ensureAccessToken c = refreshOrGrant { c with times := ts' } := by
  by_cases h : truthyStr c.st.accessToken = true ∧ truthyInt c.st.tokenExpiresAt = true
  · have htime : c.st.tokenExpiresAt.getD 0 ≤ c.times.headD 0 := by
      rcases hguard with h1 | h1 | h1
      · rw [h.1] at h1; exact absurd h1 (by simp)
      · rw [h.2] at h1; exact absurd h1 (by simp)
      · exact h1
    refine ⟨c.times.tail, ?_⟩
    rcases hts : c.times with _ | ⟨t0, ts⟩
    · rw [hts] at htime
      simp only [List.headD_nil] at htime
      simp [ensureAccessToken, h.1, h.2, Ctx.popTime, hts, not_lt.mpr htime]
      congr 1
      cases c
      simp_all
    · rw [hts] at htime
      simp only [List.headD_cons] at htime
      simp [ensureAccessToken, h.1, h.2, Ctx.popTime, hts, not_lt.mpr htime]
  · refine ⟨c.times, ?_⟩
    rw [Decidable.not_and_iff_or_not] at h
    have hg : ¬ (truthyStr c.st.accessToken = true ∧ truthyInt c.st.tokenExpiresAt = true) := by
      rcases h with h | h <;> simp_all
    simp only [ensureAccessToken, if_neg hg]

/-- Pagination loop under an honored `totalRows` contract: with a valid
token held throughout, a script of non-empty pages each declaring the
total `N`, where the accumulated length plus the remaining page lengths
equals `N`, the loop consumes exactly one scripted page per iteration and
returns the accumulator extended by the concatenation of the pages, in
order, leaving the rest of the script untouched. -/
theorem fetchGo_total {T : Type} (pages : List (List T)) (N : Nat) (path : String)
    (a : String) (rt : Option String) (t now : Int)
    (acc : List T) (page fuel : Nat) (tr : Option Nat)
    (ts' : List Int) (ar : List AuthNetResult)
    (hr : List (TransportResult (OmadaApiResponse (PaginatedResult T))))
    (disp : List (PageReq × String)) (n : Nat)
    (hane : a ≠ "") (htne : t ≠ 0) (hnow : now < t)
    (hne : ∀ d ∈ pages, d ≠ ([] : List T))
    (hsum : acc.length + (pages.map List.length).sum = N)
    (hpages : pages ≠ [])
    (hfuel : pages.length ≤ fuel) :
    fetchGo fuel path page tr acc
        (⟨⟨some a, rt, some t⟩, List.replicate pages.length now ++ ts', ar,
          pages.map (mkPageResp · (some N)) ++ hr, disp, n⟩)
      = (.ok (acc ++ pages.flatten),
         ⟨⟨some a, rt, some t⟩, ts', ar, hr,
          disp ++ pagesDispatch path page pages.length ("AccessToken=" ++ a), n⟩) := by
  induction pages generalizing acc page fuel tr disp with
  | nil => exact absurd rfl hpages
  | cons d ps ih =>
    obtain ⟨fuel', rfl⟩ : ∃ f, fuel = f + 1 := ⟨fuel - 1, by simp at hfuel; omega⟩
    have hd : d ≠ [] := hne d (by simp)
    simp only [List.map_cons, List.sum_cons] at hsum
    have hdpos : 0 < d.length := List.length_pos.mpr hd
    have hN : truthyNat (some N) = true := by simp [truthyNat]; omega
    have h1 : request (⟨path, page, DEFAULT_PAGE_SIZE⟩ : PageReq) true
        (⟨⟨some a, rt, some t⟩, now :: (List.replicate ps.length now ++ ts'), ar,
          mkPageResp d (some N) :: (ps.map (mkPageResp · (some N)) ++ hr), disp, n⟩)
      = (.ok (⟨0, none, some ⟨some d, some N⟩⟩ : OmadaApiResponse (PaginatedResult T)),
         ⟨⟨some a, rt, some t⟩, List.replicate ps.length now ++ ts', ar,
          ps.map (mkPageResp · (some N)) ++ hr,
          disp ++ [(⟨path, page, DEFAULT_PAGE_SIZE⟩, "AccessToken=" ++ a)], n⟩) :=
      request_valid_success (⟨path, page, DEFAULT_PAGE_SIZE⟩ : PageReq)
        a rt t now (List.replicate ps.length now ++ ts') ar
        (⟨0, none, some ⟨some d, some N⟩⟩ : OmadaApiResponse (PaginatedResult T))
        (ps.map (mkPageResp · (some N)) ++ hr) disp n hane htne hnow
    simp only [List.length_cons, List.replicate_succ, List.map_cons, List.cons_append]
    rw [fetchGo, h1]
    simp only [ensureSuccess, Option.getD_some]
    rcases ps with _ | ⟨q, qs⟩
    · have hstop : ¬ acc.length + d.length < N := by simp at hsum; omega
      simp [hd, hN, hstop, pagesDispatch]
    · have hqpos : 0 < q.length := List.length_pos.mpr (hne q (by simp))
      simp only [List.map_cons, List.sum_cons] at hsum
      have hgo : acc.length + d.length < N := by omega
      have ih' := ih (acc ++ d) (page + 1) fuel' (some N)
        (disp ++ [(⟨path, page, DEFAULT_PAGE_SIZE⟩, "AccessToken=" ++ a)])
        (fun x hx => hne x (List.mem_cons_of_mem d hx))
        (by simp; omega) (by simp) (by simp at hfuel ⊢; omega)
      simp only [List.length_cons, List.map_cons, List.cons_append,
        List.append_assoc, List.flatten_cons] at ih'
      simp [hd, hN, hgo, ih', pagesDispatch]

/-- Pagination loop when every page declares `totalRows = 0`: the
continuation condition treats the declared total as falsy, so the loop
never stops on account of the accumulated count and keeps consuming pages
until the scripted empty page, returning everything accumulated. -/
theorem fetchGo_zero_total {T : Type} (pages : List (List T)) (path : String)
    (a : String) (rt : Option String) (t now : Int)
    (acc : List T) (page fuel : Nat) (tr : Option Nat)
    (ts' : List Int) (ar : List AuthNetResult)
    (hr : List (TransportResult (OmadaApiResponse (PaginatedResult T))))
    (disp : List (PageReq × String)) (n : Nat)
    (hane : a ≠ "") (htne : t ≠ 0) (hnow : now < t)
    (hne : ∀ d ∈ pages, d ≠ ([] : List T))
    (hfuel : pages.length + 1 ≤ fuel) :
    fetchGo fuel path page tr acc
        (⟨⟨some a, rt, some t⟩, List.replicate (pages.length + 1) now ++ ts', ar,
          pages.map (mkPageResp · (some 0)) ++ (mkPageResp [] (some 0) :: hr),
          disp, n⟩)
      = (.ok (acc ++ pages.flatten),
         ⟨⟨some a, rt, some t⟩, ts', ar, hr,
          disp ++ pagesDispatch path page (pages.length + 1) ("AccessToken=" ++ a),
          n⟩) := by
  induction pages generalizing acc page fuel tr disp with
  | nil =>
    obtain ⟨fuel', rfl⟩ : ∃ f, fuel = f + 1 := ⟨fuel - 1, by omega⟩
    have h1 : request (⟨path, page, DEFAULT_PAGE_SIZE⟩ : PageReq) true
        (⟨⟨some a, rt, some t⟩, now :: ts', ar,
          mkPageResp ([] : List T) (some 0) :: hr, disp, n⟩)
      = (.ok (⟨0, none, some ⟨some [], some 0⟩⟩ : OmadaApiResponse (PaginatedResult T)),
         ⟨⟨some a, rt, some t⟩, ts', ar, hr,
          disp ++ [(⟨path, page, DEFAULT_PAGE_SIZE⟩, "AccessToken=" ++ a)], n⟩) :=
      request_valid_success (⟨path, page, DEFAULT_PAGE_SIZE⟩ : PageReq)
        a rt t now ts' ar _ hr disp n hane htne hnow
    simp only [List.length_nil, List.replicate_succ, List.replicate_zero,
      List.map_nil, List.nil_append, List.cons_append]
    rw [fetchGo, h1]
    simp [ensureSuccess, pagesDispatch]
  | cons d ps ih =>
    obtain ⟨fuel', rfl⟩ : ∃ f, fuel = f + 1 := ⟨fuel - 1, by omega⟩
    have hd : d ≠ [] := hne d (by simp)
    have h1 : request (⟨path, page, DEFAULT_PAGE_SIZE⟩ : PageReq) true
        (⟨⟨some a, rt, some t⟩,
          now :: (List.replicate (ps.length + 1) now ++ ts'), ar,
          mkPageResp d (some 0) ::
            (ps.map (mkPageResp · (some 0)) ++ (mkPageResp [] (some 0) :: hr)),
          disp, n⟩)
      = (.ok (⟨0, none, some ⟨some d, some 0⟩⟩ : OmadaApiResponse (PaginatedResult T)),
         ⟨⟨some a, rt, some t⟩, List.replicate (ps.length + 1) now ++ ts', ar,
          ps.map (mkPageResp · (some 0)) ++ (mkPageResp [] (some 0) :: hr),
          disp ++ [(⟨path, page, DEFAULT_PAGE_SIZE⟩, "AccessToken=" ++ a)], n⟩) :=
      request_valid_success (⟨path, page, DEFAULT_PAGE_SIZE⟩ : PageReq)
        a rt t now (List.replicate (ps.length + 1) now ++ ts') ar _ _ disp n
        hane htne hnow
    have ih' := ih (acc ++ d) (page + 1) fuel' (some 0)
      (disp ++ [(⟨path, page, DEFAULT_PAGE_SIZE⟩, "AccessToken=" ++ a)])
      (fun x hx => hne x (List.mem_cons_of_mem d hx))
      (by simp at hfuel ⊢; omega)
    simp only [List.length_cons, List.replicate_succ, List.map_cons,
      List.cons_append, List.append_assoc, List.flatten_cons] at ih' h1 ⊢
    rw [fetchGo, h1]
    simp [ensureSuccess, hd, truthyNat, ih', pagesDispatch]

/-- A list endpoint whose first page carries the whole collection and
declares its exact length: `fetchPaginated` returns the collection after a
single dispatched request, whether it is empty (empty-page break) or not
(accumulated count reaches the declared total). -/
theorem fetchPaginated_single_page {T : Type} (path : String) (a : String)
    (rt : Option String) (t now : Int) (ts' : List Int) (ar : List AuthNetResult)
    (hr : List (TransportResult (OmadaApiResponse (PaginatedResult T))))
    (disp : List (PageReq × String)) (n : Nat) (ds : List T)
    (hane : a ≠ "") (htne : t ≠ 0) (hnow : now < t) :
    fetchPaginated path
        (⟨⟨some a, rt, some t⟩, now :: ts', ar,
          mkPageResp ds (some ds.length) :: hr, disp, n⟩)
      = (.ok ds,
         ⟨⟨some a, rt, some t⟩, ts', ar, hr,
          disp ++ [(⟨path, 1, DEFAULT_PAGE_SIZE⟩, "AccessToken=" ++ a)], n⟩) := by
  have h1 : request (⟨path, 1, DEFAULT_PAGE_SIZE⟩ : PageReq) true
      (⟨⟨some a, rt, some t⟩, now :: ts', ar,
        mkPageResp ds (some ds.length) :: hr, disp, n⟩)
    = (.ok (⟨0, none, some ⟨some ds, some ds.length⟩⟩ :
          OmadaApiResponse (PaginatedResult T)),
       ⟨⟨some a, rt, some t⟩, ts', ar, hr,
        disp ++ [(⟨path, 1, DEFAULT_PAGE_SIZE⟩, "AccessToken=" ++ a)], n⟩) :=
    request_valid_success (⟨path, 1, DEFAULT_PAGE_SIZE⟩ : PageReq)
      a rt t now ts' ar _ hr disp n hane htne hnow
  rcases ds with _ | ⟨x, xs⟩
  · simp only [List.length_nil] at h1
    simp [fetchPaginated, fetchGo, h1, ensureSuccess]
  · simp only [List.length_cons] at h1
    simp [fetchPaginated, fetchGo, h1, ensureSuccess, truthyNat]

/-! ## Claim theorems -/

/-- Claim C4: whenever an access token is held (truthy) together with a
truthy expiry instant and the current wall-clock reading is strictly
before that instant, `ensureAccessToken` returns with the token state
unchanged, consuming no authentication outcome and issuing no
authentication post; consequently a follow-up request issued before the
expiry is dispatched with the previously fetched token in its
authorization header and performs no authentication call. -/
theorem C4_valid_token_reused {β κ : Type} (cfg : κ) (a : String) (rt : Option String)
    (t now : Int) (ts : List Int) (ar : List AuthNetResult) (body : β)
    (hr : List (TransportResult β)) (disp : List (κ × String)) (n : Nat)
    (hane : a ≠ "") (htne : t ≠ 0) (hnow : now < t) :
    ensureAccessToken
        (⟨⟨some a, rt, some t⟩, now :: ts, ar, .success body :: hr, disp, n⟩ : Ctx β κ)
      = (.ok (), ⟨⟨some a, rt, some t⟩, ts, ar, .success body :: hr, disp, n⟩) ∧
    request cfg true
        (⟨⟨some a, rt, some t⟩, now :: ts, ar, .success body :: hr, disp, n⟩ : Ctx β κ)
      = (.ok body,
         ⟨⟨some a, rt, some t⟩, ts, ar, hr,
          disp ++ [(cfg, "AccessToken=" ++ a)], n⟩) := by
  refine ⟨?_, request_valid_success cfg a rt t now ts ar body hr disp n hane htne hnow⟩
  simp [ensureAccessToken, truthyStr, truthyInt, Ctx.popTime, hane, htne, hnow]

/-- Claim C4, witness: a concrete held token `A1` expiring at 1000 with
the clock at 500 is reused on the follow-up request. -/
theorem C4_valid_token_reused_witness :
    ensureAccessToken
        (⟨⟨some "A1", some "R1", some 1000⟩, [500], [], [.success 7], [], 0⟩ : Ctx Nat String)
      = (.ok (), ⟨⟨some "A1", some "R1", some 1000⟩, [], [], [.success 7], [], 0⟩) ∧
    request "cfg" true
        (⟨⟨some "A1", some "R1", some 1000⟩, [500], [], [.success 7], [], 0⟩ : Ctx Nat String)
      = (.ok 7,
         ⟨⟨some "A1", some "R1", some 1000⟩, [], [], [],
          [("cfg", "AccessToken=" ++ "A1")], 0⟩) :=
  C4_valid_token_reused "cfg" "A1" (some "R1") 1000 500 [] [] 7 [] [] 0
    (by decide) (by decide) (by decide)

/-- Claim C5: for a grant whose declared (finite) lifetime is `e` seconds,
`setToken` stores the expiry `now + max(e − 30, 0) * 1000` milliseconds
(the buffer constant is 30 seconds); that instant is never before `now`,
and for a non-negative lifetime never after the server-declared expiry
`now + e * 1000`. -/
theorem C5_expiry_computation (st : TokenState) (now e : Int) (token : TokenResult)
    (he : token.expiresIn = some e) :
    (setToken st now token).tokenExpiresAt
        = some (now + max (e - TOKEN_EXPIRY_BUFFER_SECONDS) 0 * 1000) ∧
    TOKEN_EXPIRY_BUFFER_SECONDS = 30 ∧
    now ≤ now + max (e - TOKEN_EXPIRY_BUFFER_SECONDS) 0 * 1000 ∧
    (0 ≤ e →
      now + max (e - TOKEN_EXPIRY_BUFFER_SECONDS) 0 * 1000 ≤ now + e * 1000) := by
  refine ⟨by simp [setToken, he], rfl, ?_, ?_⟩
  · have h0 : (0 : Int) ≤ max (e - TOKEN_EXPIRY_BUFFER_SECONDS) 0 * 1000 :=
      mul_nonneg (le_max_right _ _) (by norm_num)
    omega
  · intro h0e
    have hle : max (e - TOKEN_EXPIRY_BUFFER_SECONDS) 0 ≤ e :=
      max_le (by simp [TOKEN_EXPIRY_BUFFER_SECONDS]) h0e
    have := mul_le_mul_of_nonneg_right hle (by norm_num : (0:Int) ≤ 1000)
    omega

/-- Claim C5, witness: a grant with lifetime 3600 s stored at `now = 100`
yields the expiry `100 + 3570 * 1000`. -/
theorem C5_expiry_computation_witness :
    (setToken ⟨none, none, none⟩ 100 ⟨some "A", none, some 3600⟩).tokenExpiresAt
        = some (100 + max (3600 - TOKEN_EXPIRY_BUFFER_SECONDS) 0 * 1000) ∧
    TOKEN_EXPIRY_BUFFER_SECONDS = 30 ∧
    (100 : Int) ≤ 100 + max (3600 - TOKEN_EXPIRY_BUFFER_SECONDS) 0 * 1000 ∧
    ((0 : Int) ≤ 3600 →
      (100 : Int) + max (3600 - TOKEN_EXPIRY_BUFFER_SECONDS) 0 * 1000 ≤ 100 + 3600 * 1000) :=
  C5_expiry_computation ⟨none, none, none⟩ 100 3600 ⟨some "A", none, some 3600⟩ rfl

/-- Claim C9: with no `siteId` argument and no configured default site id,
each of `listDevices`, `listClients`, `getDevice` and `getClient` fails
with the site-id error and returns the context exactly as it was: no clock
reading, no authentication post and no dispatch happens, and the token
state is unchanged. -/
theorem C9_missing_site_id (omadacId identifier : String)
    (cD : Ctx (OmadaApiResponse (PaginatedResult OmadaDeviceInfo)) PageReq)
    (cC : Ctx (OmadaApiResponse (PaginatedResult OmadaClientInfo)) PageReq) :
    listDevices ⟨none, omadacId⟩ none cD = (.error .siteMissing, cD) ∧
    listClients ⟨none, omadacId⟩ none cC = (.error .siteMissing, cC) ∧
    getDevice ⟨none, omadacId⟩ identifier none cD = (.error .siteMissing, cD) ∧
    getClient ⟨none, omadacId⟩ identifier none cC = (.error .siteMissing, cC) := by
  simp [listDevices, listClients, getDevice, getClient, resolveSiteId, truthyStr]

/-- Claim C1: a dispatched request failing with HTTP 401/403 or with a
session-invalid body error code clears the token, re-authenticates (one
client-credentials post, since the cleared state holds no refresh token),
and replays the identical config exactly once with the fresh token; when
the replay fails with an auth-triggering error as well, that error
propagates with no further dispatch, no further authentication post and
nothing further consumed from the environment. -/
theorem C1_retry_once {β κ : Type} (cfg : κ) (a a₂ : String) (rt rt₂ : Option String)
    (t now₁ now₂ now₃ e2s : Int) (ts : List Int) (m : Option String)
    (s₁ s₂ : Nat) (e₁ e₂ : Option Int) (ar : List AuthNetResult)
    (hr : List (TransportResult β)) (disp : List (κ × String)) (n : Nat)
    (hane : a ≠ "") (htne : t ≠ 0) (hnow₁ : now₁ < t)
    (htrig₁ : authRetryTrigger s₁ e₁ = true) (htrig₂ : authRetryTrigger s₂ e₂ = true)
    (ha₂ne : a₂ ≠ "")
    (ht₂ne : now₂ + max (e2s - TOKEN_EXPIRY_BUFFER_SECONDS) 0 * 1000 ≠ 0)
    (hnow₃ : now₃ < now₂ + max (e2s - TOKEN_EXPIRY_BUFFER_SECONDS) 0 * 1000) :
    request cfg true
        (⟨⟨some a, rt, some t⟩, now₁ :: now₂ :: now₃ :: ts,
          .ok ⟨0, m, some ⟨some a₂, rt₂, some e2s⟩⟩ :: ar,
          .httpError s₁ e₁ :: .httpError s₂ e₂ :: hr, disp, n⟩ : Ctx β κ)
      = (.error (.httpError s₂ e₂),
         ⟨⟨some a₂, rt₂, some (now₂ + max (e2s - TOKEN_EXPIRY_BUFFER_SECONDS) 0 * 1000)⟩,
          ts, ar, hr,
          disp ++ [(cfg, "AccessToken=" ++ a), (cfg, "AccessToken=" ++ a₂)], n + 1⟩) := by
  simp [request, ensureAccessToken, refreshOrGrant, authenticate, postAuth,
    ensureSuccess, setToken, clearTokenState, dispatch, authHeader, truthyStr,
    truthyInt, Ctx.popTime, hane, htne, hnow₁, htrig₁, htrig₂, ha₂ne, ht₂ne, hnow₃]

/-- Claim C1, witness: a 401 then a session-invalid −44112 with a
successful intermediate grant of token `A2`. -/
theorem C1_retry_once_witness :
    request "cfg" true
        (⟨⟨some "A1", some "R1", some 1000⟩, [500, 2000, 2500],
          [.ok ⟨0, none, some ⟨some "A2", some "R2", some 3600⟩⟩],
          [.httpError 401 none, .httpError 500 (some (-44112))], [], 0⟩ : Ctx Nat String)
      = (.error (.httpError 500 (some (-44112))),
         ⟨⟨some "A2", some "R2",
           some (2000 + max (3600 - TOKEN_EXPIRY_BUFFER_SECONDS) 0 * 1000)⟩,
          [], [], [],
          [("cfg", "AccessToken=" ++ "A1"), ("cfg", "AccessToken=" ++ "A2")], 0 + 1⟩) :=
  C1_retry_once "cfg" "A1" "A2" (some "R1") (some "R2") 1000 500 2000 2500 3600 []
    none 401 500 none (some (-44112)) [] [] [] 0
    (by decide) (by decide) (by decide) (by decide) (by decide) (by decide)
    (by decide) (by decide)

/-- Claim C3, counterexample: an envelope with session-invalid code
−44112 arriving on a successfully transported (2xx) response is returned
by `request` as an ordinary body — one dispatch, the authentication script
untouched, zero token-endpoint posts, token state unchanged — instead of
triggering the invalidate-and-retry path the claim asserts; the code is in
the session-invalid set, and `ensureSuccess` at the call site surfaces the
envelope as a plain error. -/
theorem C3_counterexample :
    request "cfg" true
        (⟨⟨some "A1", some "R1", some 1000⟩, [500],
          [.ok ⟨0, none, some ⟨some "A2", some "R2", some 3600⟩⟩],
          [.success (⟨-44112, some "boom", none⟩ :
              OmadaApiResponse (PaginatedResult Nat))], [], 0⟩ :
          Ctx (OmadaApiResponse (PaginatedResult Nat)) String)
      = (.ok ⟨-44112, some "boom", none⟩,
         ⟨⟨some "A1", some "R1", some 1000⟩, [],
          [.ok ⟨0, none, some ⟨some "A2", some "R2", some 3600⟩⟩], [],
          [("cfg", "AccessToken=A1")], 0⟩) ∧
    isAuthErrorCode (some (-44112)) = true ∧
    ensureSuccess (⟨-44112, some "boom", none⟩ :
        OmadaApiResponse (PaginatedResult Nat))
      = .error (.apiFailure "boom") := by
  refine ⟨?_, by decide, by simp [ensureSuccess]⟩
  simp [request, ensureAccessToken, truthyStr, truthyInt, Ctx.popTime, dispatch,
    authHeader]

/-- Claim C3, amended: (a) an envelope carrying a session-invalid error
code that arrives on a successfully transported (2xx) response is returned
to the caller as-is after a single dispatch with no retry and no
authentication activity, and `ensureSuccess` at the call site surfaces it
as an error; (b) a session-invalid envelope code on a transport-failed
(non-2xx) response triggers invalidate, one re-authentication and one
replay of the identical config, whatever the HTTP status; (c) a transport
failure whose status is neither 401 nor 403 and whose envelope code is
outside the set is surfaced as an error after a single dispatch with no
retry. -/
theorem C3_session_invalid_codes {β : Type} (cfg : String) (a a₂ : String)
    (rt rt₂ : Option String) (t now₁ now₂ now₃ e2s : Int) (ts : List Int)
    (m me : Option String) (r : Option (PaginatedResult Nat))
    (c0 : Int) (s s' : Nat) (ec ec' : Option Int) (b : β)
    (ar : List AuthNetResult) (hr : List (TransportResult β))
    (hrp : List (TransportResult (OmadaApiResponse (PaginatedResult Nat))))
    (disp : List (String × String)) (n : Nat)
    (hane : a ≠ "") (htne : t ≠ 0) (hnow₁ : now₁ < t)
    (hc0 : isAuthErrorCode (some c0) = true)
    (hec : isAuthErrorCode ec = true)
    (ha₂ne : a₂ ≠ "")
    (ht₂ne : now₂ + max (e2s - TOKEN_EXPIRY_BUFFER_SECONDS) 0 * 1000 ≠ 0)
    (hnow₃ : now₃ < now₂ + max (e2s - TOKEN_EXPIRY_BUFFER_SECONDS) 0 * 1000)
    (hs1 : s' ≠ 401) (hs2 : s' ≠ 403) (hec' : isAuthErrorCode ec' = false) :
    (request cfg true
        (⟨⟨some a, rt, some t⟩, now₁ :: ts, ar,
          .success ⟨c0, me, r⟩ :: hrp, disp, n⟩ :
          Ctx (OmadaApiResponse (PaginatedResult Nat)) String)
      = (.ok ⟨c0, me, r⟩,
         ⟨⟨some a, rt, some t⟩, ts, ar, hrp,
          disp ++ [(cfg, "AccessToken=" ++ a)], n⟩) ∧
     ensureSuccess (⟨c0, me, r⟩ : OmadaApiResponse (PaginatedResult Nat))
       = .error (.apiFailure (me.getD "Omada API request failed"))) ∧
    request cfg true
        (⟨⟨some a, rt, some t⟩, now₁ :: now₂ :: now₃ :: ts,
          .ok ⟨0, m, some ⟨some a₂, rt₂, some e2s⟩⟩ :: ar,
          .httpError s ec :: .success b :: hr, disp, n⟩ : Ctx β String)
      = (.ok b,
         ⟨⟨some a₂, rt₂, some (now₂ + max (e2s - TOKEN_EXPIRY_BUFFER_SECONDS) 0 * 1000)⟩,
          ts, ar, hr,
          disp ++ [(cfg, "AccessToken=" ++ a), (cfg, "AccessToken=" ++ a₂)],
          n + 1⟩) ∧
    request cfg true
        (⟨⟨some a, rt, some t⟩, now₁ :: ts, ar,
          .httpError s' ec' :: hr, disp, n⟩ : Ctx β String)
      = (.error (.httpError s' ec'),
         ⟨⟨some a, rt, some t⟩, ts, ar, hr,
          disp ++ [(cfg, "AccessToken=" ++ a)], n⟩) := by
  have hc0ne : c0 ≠ 0 := by
    simp [isAuthErrorCode] at hc0
    rcases hc0 with h | h | h | h | h | h <;> omega
  refine ⟨⟨request_valid_success cfg a rt t now₁ ts ar _ hrp disp n hane htne hnow₁,
      by simp [ensureSuccess, hc0ne]⟩, ?_, ?_⟩
  · simp [request, ensureAccessToken, refreshOrGrant, authenticate, postAuth,
      ensureSuccess, setToken, clearTokenState, dispatch, authHeader, truthyStr,
      truthyInt, Ctx.popTime, authRetryTrigger, hane, htne, hnow₁, hec, ha₂ne,
      ht₂ne, hnow₃]
  · simp [request, ensureAccessToken, dispatch, authHeader, truthyStr, truthyInt,
      Ctx.popTime, authRetryTrigger, hane, htne, hnow₁, hs1, hs2, hec']

/-- Claim C3 (amended), witness: code −44113 on a 2xx envelope is
surfaced without retry; −44113 on an HTTP 500 transport error triggers the
single re-authenticated replay; code −40000 on an HTTP 500 is surfaced
without retry. -/
theorem C3_session_invalid_codes_witness :
    (request "cfg" true
        (⟨⟨some "A1", some "R1", some 1000⟩, [500], [],
          .success ⟨-44113, some "bad", none⟩ :: [], [], 0⟩ :
          Ctx (OmadaApiResponse (PaginatedResult Nat)) String)
      = (.ok ⟨-44113, some "bad", none⟩,
         ⟨⟨some "A1", some "R1", some 1000⟩, [], [], [],
          [("cfg", "AccessToken=" ++ "A1")], 0⟩) ∧
     ensureSuccess (⟨-44113, some "bad", none⟩ :
         OmadaApiResponse (PaginatedResult Nat))
       = .error (.apiFailure ((some "bad").getD "Omada API request failed"))) ∧
    request "cfg" true
        (⟨⟨some "A1", some "R1", some 1000⟩, [500, 2000, 2500],
          [.ok ⟨0, none, some ⟨some "A2", some "R2", some 3600⟩⟩],
          .httpError 500 (some (-44113)) :: .success 9 :: [], [], 0⟩ :
          Ctx Nat String)
      = (.ok 9,
         ⟨⟨some "A2", some "R2",
           some (2000 + max (3600 - TOKEN_EXPIRY_BUFFER_SECONDS) 0 * 1000)⟩,
          [], [], [],
          [("cfg", "AccessToken=" ++ "A1"), ("cfg", "AccessToken=" ++ "A2")],
          0 + 1⟩) ∧
    request "cfg" true
        (⟨⟨some "A1", some "R1", some 1000⟩, [500], [],
          .httpError 500 (some (-40000)) :: [], [], 0⟩ : Ctx Nat String)
      = (.error (.httpError 500 (some (-40000))),
         ⟨⟨some "A1", some "R1", some 1000⟩, [], [], [],
          [("cfg", "AccessToken=" ++ "A1")], 0⟩) :=
  C3_session_invalid_codes "cfg" "A1" "A2" (some "R1") (some "R2") 1000 500 2000
    2500 3600 [] none (some "bad") none (-44113) 500 500 (some (-44113))
    (some (-40000)) 9 [] [] [] [] 0
    (by decide) (by decide) (by decide) (by decide) (by decide) (by decide)
    (by decide) (by decide) (by decide) (by decide) (by decide)

/-- Claim C6: when `ensureAccessToken` runs with an expired or absent
token while a refresh token is held and the refresh post fails for any
reason (transport failure or non-zero envelope code), exactly two
token-endpoint posts happen — the single refresh attempt followed by a
single client-credentials grant, never a second refresh — with no
dispatches; when the grant itself fails its error surfaces and the token
state stays fully cleared, a grant envelope with non-zero error code
surfaces as the authentication error carrying its message, and a
successful grant installs exactly the granted token over the cleared
state. -/
theorem C6_refresh_failure_single_grant {β κ : Type} (c : Ctx β κ) (rT : String)
    (r₁ r₂ : AuthNetResult) (ar : List AuthNetResult)
    (hrT : c.st.refreshToken = some rT) (hrTne : rT ≠ "")
    (har : c.authResults = r₁ :: r₂ :: ar)
    (hguard : truthyStr c.st.accessToken = false ∨
              truthyInt c.st.tokenExpiresAt = false ∨
              c.st.tokenExpiresAt.getD 0 ≤ c.times.headD 0)
    (hfail₁ : authFails r₁ = true) :
    (ensureAccessToken c).2.authResults = ar ∧
    (ensureAccessToken c).2.authCalls = c.authCalls + 2 ∧
    (ensureAccessToken c).2.httpResults = c.httpResults ∧
    (ensureAccessToken c).2.dispatched = c.dispatched ∧
    (r₂ = .fail →
      (ensureAccessToken c).1 = .error .authNetError ∧
      (ensureAccessToken c).2.st = clearTokenState) ∧
    (∀ env₂, r₂ = .ok env₂ → env₂.errorCode ≠ 0 →
      (ensureAccessToken c).1
          = .error (.apiFailure (env₂.msg.getD "Omada API request failed")) ∧
      (ensureAccessToken c).2.st = clearTokenState) ∧
    (∀ env₂, r₂ = .ok env₂ → env₂.errorCode = 0 →
      (ensureAccessToken c).1 = .ok () ∧
      (ensureAccessToken c).2.st.accessToken
          = (env₂.result.getD EmptyObject.emptyObject).accessToken ∧
      (ensureAccessToken c).2.st.refreshToken
          = (env₂.result.getD EmptyObject.emptyObject).refreshToken) := by
  obtain ⟨ts', heq⟩ := ensureAccessToken_guard_fails c hguard
  have hrt : truthyStr c.st.refreshToken = true := by simp [truthyStr, hrT, hrTne]
  rw [heq, refreshOrGrant_refresh_fails _ r₁ (r₂ :: ar) (by simpa using hrt)
    (by simpa using har) hfail₁]
  rcases r₂ with env₂ | _
  · by_cases h0 : env₂.errorCode = 0
    · rcases ts' with _ | ⟨t0, ts''⟩ <;>
        simp [postAuth, ensureSuccess, h0, Ctx.popTime, setToken]
    · simp [postAuth, ensureSuccess, h0, clearTokenState]
  · simp [postAuth, clearTokenState]

/-- Claim C6, witness: an expired token with refresh token `R1`, a failed
refresh post, and a grant envelope installing token `A2`. -/
theorem C6_refresh_failure_single_grant_witness :
    (truthyStr (some "A1") = false ∨ truthyInt (some (1000 : Int)) = false ∨
      ((some (1000 : Int)).getD 0 ≤ ([(5000 : Int), 6000].headD 0))) ∧
    ((ensureAccessToken
        (⟨⟨some "A1", some "R1", some 1000⟩, [5000, 6000],
          [.fail, .ok ⟨0, none, some ⟨some "A2", some "R2", some 3600⟩⟩],
          ([] : List (TransportResult Nat)), ([] : List (String × String)), 0⟩ :
          Ctx Nat String)).2.authCalls = 0 + 2 ∧
     (ensureAccessToken
        (⟨⟨some "A1", some "R1", some 1000⟩, [5000, 6000],
          [.fail, .ok ⟨0, none, some ⟨some "A2", some "R2", some 3600⟩⟩],
          ([] : List (TransportResult Nat)), ([] : List (String × String)), 0⟩ :
          Ctx Nat String)).2.st.accessToken
        = ((some (⟨some "A2", some "R2", some 3600⟩ : TokenResult)).getD
            EmptyObject.emptyObject).accessToken) := by
  refine ⟨by decide, ?_, ?_⟩
  · exact (C6_refresh_failure_single_grant
      (⟨⟨some "A1", some "R1", some 1000⟩, [5000, 6000],
        [.fail, .ok ⟨0, none, some ⟨some "A2", some "R2", some 3600⟩⟩],
        [], [], 0⟩ : Ctx Nat String) "R1" .fail
      (.ok ⟨0, none, some ⟨some "A2", some "R2", some 3600⟩⟩) []
      rfl (by decide) rfl (by right; right; decide) (by decide)).2.1
  · exact ((C6_refresh_failure_single_grant
      (⟨⟨some "A1", some "R1", some 1000⟩, [5000, 6000],
        [.fail, .ok ⟨0, none, some ⟨some "A2", some "R2", some 3600⟩⟩],
        [], [], 0⟩ : Ctx Nat String) "R1" .fail
      (.ok ⟨0, none, some ⟨some "A2", some "R2", some 3600⟩⟩) []
      rfl (by decide) rfl (by right; right; decide) (by decide)).2.2.2.2.2.2
      ⟨0, none, some ⟨some "A2", some "R2", some 3600⟩⟩ rfl rfl).2.1

/-- Claim C7: a list endpoint whose first page carries zero items makes
`fetchPaginated` return the empty sequence — not an error — after exactly
one dispatched request (page 1), whatever total the page declares, with
the rest of the transport script untouched and no authentication
activity. -/
theorem C7_empty_first_page {T : Type} (path : String) (a : String)
    (rt : Option String) (t now : Int) (ts : List Int) (ar : List AuthNetResult)
    (tot : Option Nat)
    (hr : List (TransportResult (OmadaApiResponse (PaginatedResult T))))
    (disp : List (PageReq × String)) (n : Nat)
    (hane : a ≠ "") (htne : t ≠ 0) (hnow : now < t) :
    fetchPaginated path
        (⟨⟨some a, rt, some t⟩, now :: ts, ar,
          mkPageResp ([] : List T) tot :: hr, disp, n⟩)
      = (.ok [],
         ⟨⟨some a, rt, some t⟩, ts, ar, hr,
          disp ++ [(⟨path, 1, DEFAULT_PAGE_SIZE⟩, "AccessToken=" ++ a)], n⟩) := by
  have h1 := request_valid_success (⟨path, 1, DEFAULT_PAGE_SIZE⟩ : PageReq)
    a rt t now ts ar (⟨0, none, some ⟨some [], tot⟩⟩ : OmadaApiResponse (PaginatedResult T))
    hr disp n hane htne hnow
  simp [fetchPaginated, fetchGo, mkPageResp, h1, ensureSuccess]

/-- Claim C7, witness: a first page with zero items and declared total 7
yields the empty list after one dispatch. -/
theorem C7_empty_first_page_witness :
    fetchPaginated "p"
        (⟨⟨some "A1", some "R1", some 1000⟩, [500], [],
          mkPageResp ([] : List Nat) (some 7) :: [mkPageResp [3, 4] (some 7)], [], 0⟩)
      = (.ok [],
         ⟨⟨some "A1", some "R1", some 1000⟩, [], [], [mkPageResp [3, 4] (some 7)],
          [(⟨"p", 1, DEFAULT_PAGE_SIZE⟩, "AccessToken=" ++ "A1")], 0⟩) :=
  C7_empty_first_page "p" "A1" (some "R1") 1000 500 [] [] (some 7)
    [mkPageResp [3, 4] (some 7)] [] 0 (by decide) (by decide) (by decide)

/-- Claim C2: when the server honors the `totalRows` contract — every
page is non-empty, declares the same total `N`, and the page lengths sum
to `N` — `fetchPaginated` returns exactly the `N` items, concatenated in
the order the pages were returned, dispatching exactly one request per
page (pages 1, 2, …) and leaving the rest of the transport script
untouched. -/
theorem C2_total_rows_honored {T : Type} (pages : List (List T)) (N : Nat)
    (path : String) (a : String) (rt : Option String) (t now : Int)
    (ts' : List Int) (ar : List AuthNetResult)
    (hr : List (TransportResult (OmadaApiResponse (PaginatedResult T))))
    (disp : List (PageReq × String)) (n : Nat)
    (hane : a ≠ "") (htne : t ≠ 0) (hnow : now < t)
    (hne : ∀ d ∈ pages, d ≠ ([] : List T))
    (hsum : (pages.map List.length).sum = N)
    (hpages : pages ≠ []) :
    fetchPaginated path
        (⟨⟨some a, rt, some t⟩, List.replicate pages.length now ++ ts', ar,
          pages.map (mkPageResp · (some N)) ++ hr, disp, n⟩)
      = (.ok pages.flatten,
         ⟨⟨some a, rt, some t⟩, ts', ar, hr,
          disp ++ pagesDispatch path 1 pages.length ("AccessToken=" ++ a), n⟩) ∧
    pages.flatten.length = N := by
  refine ⟨?_, by simpa using hsum⟩
  have h := fetchGo_total pages N path a rt t now [] 1
    ((pages.map (mkPageResp · (some N)) ++ hr).length + 1) none ts' ar hr disp n
    hane htne hnow hne (by simpa using hsum) hpages
    (by simp only [List.length_append, List.length_map]; omega)
  simpa [fetchPaginated] using h

/-- Claim C2, witness: first page of 200 items and second page of 150
items, both declaring `totalRows = 350`, yield the 350 items in order and
leave the scripted third page unrequested. -/
theorem C2_total_rows_honored_witness :
    fetchPaginated "p"
        (⟨⟨some "A1", some "R1", some 1000⟩,
          List.replicate ([List.range 200, List.range 150] : List (List Nat)).length 500 ++ [],
          [],
          ([List.range 200, List.range 150] : List (List Nat)).map (mkPageResp · (some 350))
            ++ [mkPageResp [999] (some 350)], [], 0⟩)
      = (.ok ([List.range 200, List.range 150] : List (List Nat)).flatten,
         ⟨⟨some "A1", some "R1", some 1000⟩, [], [], [mkPageResp [999] (some 350)],
          [] ++ pagesDispatch "p" 1 ([List.range 200, List.range 150] : List (List Nat)).length
            ("AccessToken=" ++ "A1"), 0⟩) ∧
    ([List.range 200, List.range 150] : List (List Nat)).flatten.length = 350 :=
  C2_total_rows_honored [List.range 200, List.range 150] 350 "p" "A1" (some "R1")
    1000 500 [] [] [mkPageResp [999] (some 350)] [] 0
    (by decide) (by decide) (by decide)
    (by intro d hd; simp at hd; rcases hd with rfl | rfl <;> simp [List.range_eq_nil])
    (by simp [List.length_range]) (by simp)

/-- Claim C10: a declared total row count of exactly 0 is falsy for the
continuation condition, exactly like an absent total: `fetchPaginated`
does not stop because the accumulated count reached the declared total of
0, but keeps dispatching successive pages (1, 2, …) past every non-empty
page declaring `totalRows = 0` and stops only at the page that returns
zero items, returning everything accumulated. -/
theorem C10_zero_total_keeps_paging {T : Type} (pages : List (List T))
    (path : String) (a : String) (rt : Option String) (t now : Int)
    (ts' : List Int) (ar : List AuthNetResult)
    (hr : List (TransportResult (OmadaApiResponse (PaginatedResult T))))
    (disp : List (PageReq × String)) (n : Nat)
    (hane : a ≠ "") (htne : t ≠ 0) (hnow : now < t)
    (hne : ∀ d ∈ pages, d ≠ ([] : List T)) :
    fetchPaginated path
        (⟨⟨some a, rt, some t⟩, List.replicate (pages.length + 1) now ++ ts', ar,
          pages.map (mkPageResp · (some 0)) ++ (mkPageResp [] (some 0) :: hr),
          disp, n⟩)
      = (.ok pages.flatten,
         ⟨⟨some a, rt, some t⟩, ts', ar, hr,
          disp ++ pagesDispatch path 1 (pages.length + 1) ("AccessToken=" ++ a),
          n⟩) := by
  have h := fetchGo_zero_total pages path a rt t now [] 1
    ((pages.map (mkPageResp · (some 0)) ++ (mkPageResp [] (some 0) :: hr)).length + 1)
    none ts' ar hr disp n hane htne hnow hne
    (by simp only [List.length_append, List.length_map, List.length_cons]; omega)
  simpa [fetchPaginated] using h

/-- Claim C10, witness: pages `[1, 2]` and `[3]` both declaring
`totalRows = 0` are accumulated past the point where the count exceeds 0
and a third request is made, stopping at the empty third page. -/
theorem C10_zero_total_keeps_paging_witness :
    fetchPaginated "p"
        (⟨⟨some "A1", some "R1", some 1000⟩,
          List.replicate (([[1, 2], [3]] : List (List Nat)).length + 1) 500 ++ [], [],
          ([[1, 2], [3]] : List (List Nat)).map (mkPageResp · (some 0))
            ++ (mkPageResp [] (some 0) :: [mkPageResp [9] (some 0)]), [], 0⟩)
      = (.ok ([[1, 2], [3]] : List (List Nat)).flatten,
         ⟨⟨some "A1", some "R1", some 1000⟩, [], [], [mkPageResp [9] (some 0)],
          [] ++ pagesDispatch "p" 1 (([[1, 2], [3]] : List (List Nat)).length + 1)
            ("AccessToken=" ++ "A1"), 0⟩) :=
  C10_zero_total_keeps_paging [[1, 2], [3]] "p" "A1" (some "R1") 1000 500 [] []
    [mkPageResp [9] (some 0)] [] 0 (by decide) (by decide) (by decide) (by decide)

/-- Claim C8: over a fetched collection, `getDevice` returns the first
device whose `mac` or `deviceId` equals the identifier and `getClient` the
first client whose `mac` or `id` equals it (the linear scan `find?`);
when no element matches either field the result is an explicit `none`
inside a successful return, never an error. -/
theorem C8_lookup_by_identifier (omadacId site identifier : String)
    (dflt : Option String) (a : String) (rt : Option String) (t now : Int)
    (ts' : List Int) (ar : List AuthNetResult)
    (hrD : List (TransportResult (OmadaApiResponse (PaginatedResult OmadaDeviceInfo))))
    (hrC : List (TransportResult (OmadaApiResponse (PaginatedResult OmadaClientInfo))))
    (disp : List (PageReq × String)) (n : Nat)
    (ds : List OmadaDeviceInfo) (cs : List OmadaClientInfo)
    (hane : a ≠ "") (htne : t ≠ 0) (hnow : now < t) (hsite : site ≠ "") :
    getDevice ⟨dflt, omadacId⟩ identifier (some site)
        (⟨⟨some a, rt, some t⟩, now :: ts', ar,
          mkPageResp ds (some ds.length) :: hrD, disp, n⟩)
      = (.ok (ds.find? (deviceMatches identifier)),
         ⟨⟨some a, rt, some t⟩, ts', ar, hrD,
          disp ++ [(⟨buildOmadaPath omadacId
              ("/sites/" ++ encodeURIComponent site ++ "/devices"),
            1, DEFAULT_PAGE_SIZE⟩, "AccessToken=" ++ a)], n⟩) ∧
    getClient ⟨dflt, omadacId⟩ identifier (some site)
        (⟨⟨some a, rt, some t⟩, now :: ts', ar,
          mkPageResp cs (some cs.length) :: hrC, disp, n⟩)
      = (.ok (cs.find? (clientMatches identifier)),
         ⟨⟨some a, rt, some t⟩, ts', ar, hrC,
          disp ++ [(⟨buildOmadaPath omadacId
              ("/sites/" ++ encodeURIComponent site ++ "/clients"),
            1, DEFAULT_PAGE_SIZE⟩, "AccessToken=" ++ a)], n⟩) ∧
    ((∀ d ∈ ds, deviceMatches identifier d = false) →
      ds.find? (deviceMatches identifier) = none) ∧
    (∀ d, ds.find? (deviceMatches identifier) = some d →
      deviceMatches identifier d = true ∧ d ∈ ds) ∧
    ((∀ x ∈ cs, clientMatches identifier x = false) →
      cs.find? (clientMatches identifier) = none) ∧
    (∀ x, cs.find? (clientMatches identifier) = some x →
      clientMatches identifier x = true ∧ x ∈ cs) := by
  have hD := fetchPaginated_single_page
    (buildOmadaPath omadacId ("/sites/" ++ encodeURIComponent site ++ "/devices"))
    a rt t now ts' ar hrD disp n ds hane htne hnow
  have hC := fetchPaginated_single_page
    (buildOmadaPath omadacId ("/sites/" ++ encodeURIComponent site ++ "/clients"))
    a rt t now ts' ar hrC disp n cs hane htne hnow
  refine ⟨?_, ?_, ?_, ?_, ?_, ?_⟩
  · simp [getDevice, listDevices, resolveSiteId, truthyStr, hsite, hD]
  · simp [getClient, listClients, resolveSiteId, truthyStr, hsite, hC]
  · intro hnone
    exact List.find?_eq_none.mpr (fun d hd => by simp [hnone d hd])
  · intro d hfind
    exact ⟨List.find?_some hfind, List.mem_of_find?_eq_some hfind⟩
  · intro hnone
    exact List.find?_eq_none.mpr (fun x hx => by simp [hnone x hx])
  · intro x hfind
    exact ⟨List.find?_some hfind, List.mem_of_find?_eq_some hfind⟩

/-- Claim C8, witness: identifier `dev2` matches the second device by its
`deviceId` and identifier `cc:dd` matches the second client by its `mac`;
identifier matching nothing yields `none` through the same theorem. -/
theorem C8_lookup_by_identifier_witness :
    getDevice ⟨none, "oid"⟩ "dev2" (some "s1")
        (⟨⟨some "A1", some "R1", some 1000⟩, [500], [],
          mkPageResp ([⟨"aa:bb", "dev1"⟩, ⟨"cc:dd", "dev2"⟩] : List OmadaDeviceInfo)
            (some ([⟨"aa:bb", "dev1"⟩, ⟨"cc:dd", "dev2"⟩] : List OmadaDeviceInfo).length)
            :: [], [], 0⟩)
      = (.ok (([⟨"aa:bb", "dev1"⟩, ⟨"cc:dd", "dev2"⟩] : List OmadaDeviceInfo).find?
            (deviceMatches "dev2")),
         ⟨⟨some "A1", some "R1", some 1000⟩, [], [], [],
          [(⟨buildOmadaPath "oid"
              ("/sites/" ++ encodeURIComponent "s1" ++ "/devices"),
            1, DEFAULT_PAGE_SIZE⟩, "AccessToken=" ++ "A1")], 0⟩) ∧
    getClient ⟨none, "oid"⟩ "dev2" (some "s1")
        (⟨⟨some "A1", some "R1", some 1000⟩, [500], [],
          mkPageResp ([⟨"aa:bb", "cl1"⟩] : List OmadaClientInfo)
            (some ([⟨"aa:bb", "cl1"⟩] : List OmadaClientInfo).length)
            :: [], [], 0⟩)
      = (.ok (([⟨"aa:bb", "cl1"⟩] : List OmadaClientInfo).find?
            (clientMatches "dev2")),
         ⟨⟨some "A1", some "R1", some 1000⟩, [], [], [],
          [(⟨buildOmadaPath "oid"
              ("/sites/" ++ encodeURIComponent "s1" ++ "/clients"),
            1, DEFAULT_PAGE_SIZE⟩, "AccessToken=" ++ "A1")], 0⟩) ∧
    ((∀ d ∈ ([⟨"aa:bb", "dev1"⟩, ⟨"cc:dd", "dev2"⟩] : List OmadaDeviceInfo),
        deviceMatches "dev2" d = false) →
      ([⟨"aa:bb", "dev1"⟩, ⟨"cc:dd", "dev2"⟩] : List OmadaDeviceInfo).find?
        (deviceMatches "dev2") = none) ∧
    (∀ d, ([⟨"aa:bb", "dev1"⟩, ⟨"cc:dd", "dev2"⟩] : List OmadaDeviceInfo).find?
        (deviceMatches "dev2") = some d →
      deviceMatches "dev2" d = true ∧
        d ∈ ([⟨"aa:bb", "dev1"⟩, ⟨"cc:dd", "dev2"⟩] : List OmadaDeviceInfo)) ∧
    ((∀ x ∈ ([⟨"aa:bb", "cl1"⟩] : List OmadaClientInfo),
        clientMatches "dev2" x = false) →
      ([⟨"aa:bb", "cl1"⟩] : List OmadaClientInfo).find? (clientMatches "dev2") = none) ∧
    (∀ x, ([⟨"aa:bb", "cl1"⟩] : List OmadaClientInfo).find?
        (clientMatches "dev2") = some x →
      clientMatches "dev2" x = true ∧
        x ∈ ([⟨"aa:bb", "cl1"⟩] : List OmadaClientInfo)) :=
  C8_lookup_by_identifier "oid" "s1" "dev2" none "A1" (some "R1") 1000 500 [] []
    [] [] [] 0 [⟨"aa:bb", "dev1"⟩, ⟨"cc:dd", "dev2"⟩] [⟨"aa:bb", "cl1"⟩]
    (by decide) (by decide) (by decide) (by decide)

end Omada
